import Mathlib

/-!
Shallow embedding of the asynchronous chat orchestrator of this repository:
the polling transport (`apiService.startChat` / `getMessageStatus` /
`sendMessageWithPolling` in apiService.js) and the orchestrator
(`sendMessageContent`, `loadHistory`, and the localStorage mirror helpers in
the chat interface component).  Timestamps are modelled as natural numbers
(milliseconds); each poll iteration's clock readings are modelled as a single
instant `now`.  JavaScript `undefined`/missing fields are modelled as
`Option.none`; JavaScript truthiness of strings (empty string is falsy) and
of objects (present means truthy) is modelled explicitly.
-/

namespace Castellers

/-- JavaScript `a || d` for an optional string `a`: the default is used when
the field is absent or the empty string (empty strings are falsy). -/
def orElseStr (a : Option String) (d : String) : String :=
  match a with
  | none => d
  | some s => if s = "" then d else s

/-- JavaScript truthiness of an optional string field. -/
def truthyStr (a : Option String) : Bool :=
  match a with
  | none => false
  | some s => s ≠ ""

def isWhitespaceChar (c : Char) : Bool :=
  c = ' ' || c = '\t' || c = '\n' || c = '\r'

/-- JavaScript `String.prototype.trim`: strips leading and trailing
whitespace. -/
def jsTrim (s : String) : String :=
  ⟨((s.data.dropWhile isWhitespaceChar).reverse.dropWhile
      isWhitespaceChar).reverse⟩

/-- An entry of the `castells` list inside an entities payload: the source
maps `c => typeof c === 'string' ? c : c.castell_code`. -/
inductive CastellRef where
  | str (s : String)
  | obj (castell_code : String)
deriving DecidableEq, Repr

/-- The free-form entities payload produced by the backend
(`identified_entities`).  Only the fields the frontend reads are modelled;
each may be absent. -/
structure Entities where
  colles : Option (List String) := none
  castells : Option (List CastellRef) := none
  anys : Option (List Nat) := none
  llocs : Option (List String) := none
  diades : Option (List String) := none
  sql_query_type : Option String := none
deriving DecidableEq, Repr

/-- Opaque tabular payload (`table_data`), carried through unchanged. -/
structure TableData where
  payload : String
deriving DecidableEq, Repr

/-- A response of `GET /api/chat/status/:id` as read by the frontend. -/
structure StatusResponse where
  status : String
  identified_entities : Option Entities := none
  route_used : Option String := none
  response : Option String := none
  response_time_ms : Option Nat := none
  error_message : Option String := none
  table_data : Option TableData := none
deriving DecidableEq, Repr

/-- The payload `sendMessageWithPolling` resolves with (shape of the object
literals passed to `resolve` in apiService.js). -/
structure ChatResponse where
  id : String
  content : String
  response : Option String
  route_used : String
  timestamp : Nat
  response_time_ms : Nat
  session_id : Option String
  table_data : Option TableData
  identified_entities : Option Entities
deriving DecidableEq, Repr

/-- One poll iteration's environment: the clock value observed during the
iteration and the outcome of the `getMessageStatus` fetch (`Except.error`
is a transport failure, which the `catch` turns into a rejection). -/
structure PollStep where
  now : Nat
  fetch : Except String StatusResponse
deriving Repr

/-- How the promise returned by `sendMessageWithPolling` settles.
`pending` means the supplied trace ended before the job did (the promise
has not settled yet). -/
inductive PollFinal where
  | resolved (r : ChatResponse)
  | rejected (msg : String)
  | pending
deriving DecidableEq, Repr

def POLL_INTERVAL : Nat := 300
def MAX_POLL_TIME : Nat := 60000

/-- The generic fallback used when the backend reports `status: 'error'`
without an `error_message`. -/
def genericErrorText : String := "Hi ha hagut un error processant la teva pregunta."

/-- The rejection message of the polling timeout. -/
def timeoutText : String := "Request timeout - processing took too long"

/-- The `poll` closure of `sendMessageWithPolling`, one iteration per trace
element, threading the `entitiesReceived` flag.  Returns the list of
`onEntities` invocations (entities and `route_used` argument pairs, in
order) together with how the promise settles. -/
def pollLoop (content : String) (sessionId : Option String)
    (message_id : String) (pollStart : Nat) :
    List PollStep → Bool → List (Entities × Option String) × PollFinal
  | [], _ => ([], .pending)
  | step :: rest, entitiesReceived =>
    if step.now - pollStart > MAX_POLL_TIME then
      ([], .rejected timeoutText)
    else
      match step.fetch with
      | .error e => ([], .rejected e)
      | .ok status =>
        let fire := !entitiesReceived && status.identified_entities.isSome &&
          (status.status == "entities_ready" || status.status == "complete")
        let calls : List (Entities × Option String) :=
          if fire then
            match status.identified_entities with
            | some ents => [(ents, status.route_used)]
            | none => []
          else []
        if status.status = "complete" then
          (calls, .resolved {
            id := message_id
            content := content
            response := status.response
            route_used := orElseStr status.route_used "unknown"
            timestamp := step.now
            response_time_ms := (status.response_time_ms).getD 0
            session_id := sessionId
            table_data := status.table_data
            identified_entities := status.identified_entities })
        else if status.status = "error" then
          (calls, .resolved {
            id := message_id
            content := content
            response := some (orElseStr status.error_message genericErrorText)
            route_used := "error"
            timestamp := step.now
            response_time_ms := 0
            session_id := sessionId
            table_data := none
            identified_entities := none })
        else
          let next := pollLoop content sessionId message_id pollStart rest
            (entitiesReceived || fire)
          (calls ++ next.1, next.2)

/-- The previous-turn context the orchestrator builds for follow-up
questions (shape of the `previousContext` object literal). -/
structure PrevContext where
  question : String
  response : Option String
  route : Option String
  sql_query_type : Option String
  colles : List String
  castells : List String
  anys : List Nat
  llocs : List String
  diades : List String
deriving DecidableEq, Repr

/-- `sendMessageWithPolling`: a failed `startChat` rejects before any poll;
otherwise the poll loop runs with `entitiesReceived = false`. -/
def sendMessageWithPolling (content : String) (sessionId : Option String)
    (startResult : Except String String) (pollStart : Nat)
    (steps : List PollStep) :
    List (Entities × Option String) × PollFinal :=
  match startResult with
  | .error e => ([], .rejected e)
  | .ok message_id => pollLoop content sessionId message_id pollStart steps false

/-- A message of the in-memory conversation list.  User messages are created
with `response: ''`; fields a literal omits default to `none` (JavaScript
`undefined`). -/
structure Message where
  id : String
  content : String
  response : Option String
  route_used : String
  timestamp : Nat
  response_time_ms : Nat
  isUser : Bool
  table_data : Option TableData := none
  identified_entities : Option Entities := none
deriving DecidableEq, Repr

/-- `le` form of the sort comparator used on the message list: timestamps
ascending; at equal timestamps a user message compares before an assistant
message (comparator returns -1/1), all other pairs tie. -/
def msgLE (a b : Message) : Bool :=
  if a.timestamp = b.timestamp then
    if a.isUser && !b.isUser then true
    else if !a.isUser && b.isUser then false
    else true
  else decide (a.timestamp < b.timestamp)

/-- The comparator as a decidable relation. -/
def msgRel (a b : Message) : Prop := msgLE a b = true

instance : DecidableRel msgRel := fun a b =>
  inferInstanceAs (Decidable (msgLE a b = true))

/-- The re-sort applied to the message list (`updated.sort(...)` /
`[...history].sort(...)`).  JavaScript `Array.prototype.sort` is stable,
and a stable sort by a total preorder has a unique result, so the stable
`insertionSort` produces exactly the list the browser produces. -/
def sortMessages (l : List Message) : List Message :=
  List.insertionSort msgRel l

/-- The orchestrator state owned by the chat component: the message list and
the pieces of component state the orchestrator reads or writes
(`isLoading`, `error`, `identifiedEntities`, the active `sessionId`). -/
structure ChatState where
  messages : List Message
  isLoading : Bool := false
  error : String := ""
  identifiedEntities : Option Entities := none
  sessionId : Option String := none
deriving DecidableEq, Repr

def emptyState : ChatState := { messages := [] }

/-- JavaScript `s || null` for a string field. -/
def strOrNull (s : String) : Option String :=
  if s = "" then none else some s

def castellRefCode : CastellRef → String
  | .str s => s
  | .obj castell_code => castell_code

/-- `previousContext` construction in `sendMessageContent`: built from the
last element of `messages.filter(msg => !msg.isUser && msg.response)`,
`null` when there is none. -/
def buildPreviousContext (messages : List Message) : Option PrevContext :=
  let assistantMessages :=
    messages.filter (fun msg => !msg.isUser && truthyStr msg.response)
  match assistantMessages.getLast? with
  | none => none
  | some lastAssistant =>
    let entities := (lastAssistant.identified_entities).getD {}
    some {
      question := lastAssistant.content
      response := lastAssistant.response.map (fun s => s.take 300)
      route := strOrNull lastAssistant.route_used
      sql_query_type :=
        match entities.sql_query_type with
        | none => none
        | some s => strOrNull s
      colles := entities.colles.getD []
      castells := (entities.castells.getD []).map castellRefCode
      anys := entities.anys.getD []
      llocs := entities.llocs.getD []
      diades := entities.diades.getD [] }

/-- Id of the optimistic placeholder user message for a submission at
instant `n`: `` `temp_${Date.now()}` + '_user' ``. -/
def tempUserId (n : Nat) : String :=
  "temp_" ++ toString n ++ "_user"

/-- The optimistic placeholder user message inserted on submission. -/
def placeholderMessage (content : String) (now : Nat) : Message :=
  { id := tempUserId now, content := content, response := some "",
    route_used := "", timestamp := now, response_time_ms := 0, isUser := true }

/-- `userMessageFromDb`: the finalized user message built at commit. -/
def userMessageFromDb (content : String) (r : ChatResponse) : Message :=
  { id := r.id ++ "_user", content := content, response := some "",
    route_used := "", timestamp := r.timestamp, response_time_ms := 0,
    isUser := true }

/-- `assistantMessage`: the assistant message built at commit
(`route_used || ''` and `response_time_ms || 0` are identities in the
model, `table_data || null` and `identified_entities || null` map absent
to `none`). -/
def assistantMessage (content : String) (r : ChatResponse) : Message :=
  { id := r.id, content := content, response := r.response,
    route_used := r.route_used, timestamp := r.timestamp,
    response_time_ms := r.response_time_ms, isUser := false,
    table_data := r.table_data, identified_entities := r.identified_entities }

/-- The request payload handed to `startChat`. -/
structure StartCall where
  content : String
  session_id : Option String
  previous_context : Option PrevContext
deriving DecidableEq, Repr

/-- Per-turn environment: the submission instant (`Date.now()` at
placeholder creation), the outcome of the `startChat` request, and the
poll trace. -/
structure TurnEnv where
  submitNow : Nat
  startResult : Except String String
  pollStart : Nat
  steps : List PollStep

/-- Result of one `sendMessageContent` call: the new state, the request
passed to `startChat` (`none` when the guard rejected the submission), and
the `onEntities` invocations. -/
structure TurnResult where
  state : ChatState
  startCall : Option StartCall
  entityCalls : List (Entities × Option String)

/-- `sendMessageContent`: guard, optimistic placeholder insertion, context
construction, polling, and commit / failure handling.  The `onEntities`
callback (`handleEntitiesReceived`) stores each entities payload in
`identifiedEntities`; a `pending` poll leaves the promise unsettled, so
`finally` has not yet run and `isLoading` stays `true`. -/
def sendMessageContent (s : ChatState) (messageContent : String)
    (env : TurnEnv) : TurnResult :=
  if jsTrim messageContent = "" || s.isLoading then
    { state := s, startCall := none, entityCalls := [] }
  else
    let userMessage := placeholderMessage messageContent env.submitNow
    let s1 : ChatState := { s with
      messages := s.messages ++ [userMessage]
      isLoading := true
      error := ""
      identifiedEntities := none }
    let previousContext := buildPreviousContext s.messages
    let startCall : StartCall := {
      content := messageContent
      session_id := s.sessionId
      previous_context := previousContext }
    let out := sendMessageWithPolling messageContent s.sessionId
      env.startResult env.pollStart env.steps
    let sLive : ChatState := { s1 with
      identifiedEntities :=
        match out.1.getLast? with
        | some call => some call.1
        | none => none }
    match out.2 with
    | .resolved r =>
      let filtered := sLive.messages.filter (fun msg => msg.id != userMessage.id)
      let updated := filtered ++
        [userMessageFromDb messageContent r, assistantMessage messageContent r]
      { state := { sLive with messages := sortMessages updated, isLoading := false }
        startCall := some startCall
        entityCalls := out.1 }
    | .rejected e =>
      { state := { sLive with
          error := orElseStr (some e) "Error enviant el missatge"
          messages := sLive.messages.filter (fun msg => msg.id != userMessage.id)
          isLoading := false }
        startCall := some startCall
        entityCalls := out.1 }
    | .pending =>
      { state := sLive, startCall := some startCall, entityCalls := out.1 }

/-- Serial composition of submissions: each turn runs to completion before
the next is submitted. -/
def runTurn (s : ChatState) (t : String × TurnEnv) : ChatState :=
  (sendMessageContent s t.1 t.2).state

def runTurns (s : ChatState) (ts : List (String × TurnEnv)) : ChatState :=
  ts.foldl runTurn s

def PollFinal.isResolved : PollFinal → Bool
  | .resolved _ => true
  | _ => false

/-- A turn that is accepted and reaches a successful terminal commit:
non-blank input, no turn in flight, the poll resolves, and the synthetic
placeholder id does not collide with an existing message id. -/
def goodTurn (s : ChatState) (content : String) (env : TurnEnv) : Bool :=
  jsTrim content ≠ "" && !s.isLoading &&
    ((sendMessageWithPolling content s.sessionId env.startResult
        env.pollStart env.steps).2).isResolved &&
    s.messages.all (fun m => m.id != tempUserId env.submitNow)

/-- Every turn of the sequence is a `goodTurn` from the state reached so
far. -/
def serialOk : ChatState → List (String × TurnEnv) → Bool
  | _, [] => true
  | s, t :: ts => goodTurn s t.1 t.2 && serialOk (runTurn s t) ts

/-! ### Local cache (localStorage mirror of the unsaved conversation)

`saveUnsavedChatToStorage` stores `JSON.stringify(messages)` and
`loadUnsavedChatFromStorage` returns `JSON.parse` of the stored text; the
parsed objects are used directly as messages.  Persistence is modelled at
the JSON-value level (`JSON.parse` after `JSON.stringify` is the identity
on JSON values); absent optional fields and `null` both decode to `none`,
matching how the component reads them (`x || null`). -/

inductive Json where
  | str (s : String)
  | num (n : Nat)
  | bool (b : Bool)
  | null
  | arr (elems : List Json)
  | obj (fields : List (String × Json))

def Json.getField : Json → String → Option Json
  | .obj fields, k => fields.lookup k
  | _, _ => none

def encodeOpt (f : α → Json) : Option α → Json
  | none => .null
  | some a => f a

def encodeCastellRef : CastellRef → Json
  | .str s => .str s
  | .obj castell_code => .obj [("castell_code", .str castell_code)]

def decodeCastellRef : Json → Option CastellRef
  | .str s => some (.str s)
  | .obj fields =>
    match fields.lookup "castell_code" with
    | some (.str c) => some (.obj c)
    | _ => none
  | _ => none

def decodeList (f : Json → Option α) : Json → Option (List α)
  | .arr elems => elems.mapM f
  | _ => none

def decodeOpt (f : Json → Option α) : Option Json → Option (Option α)
  | none => some none
  | some .null => some none
  | some j => (f j).map some

def decodeStr : Json → Option String
  | .str s => some s
  | _ => none

def decodeNat : Json → Option Nat
  | .num n => some n
  | _ => none

def encodeStrList (l : List String) : Json := .arr (l.map .str)

def encodeNatList (l : List Nat) : Json := .arr (l.map .num)

def encodeEntities (e : Entities) : Json :=
  .obj [("colles", encodeOpt encodeStrList e.colles),
        ("castells", encodeOpt (fun l => .arr (l.map encodeCastellRef)) e.castells),
        ("anys", encodeOpt encodeNatList e.anys),
        ("llocs", encodeOpt encodeStrList e.llocs),
        ("diades", encodeOpt encodeStrList e.diades),
        ("sql_query_type", encodeOpt .str e.sql_query_type)]

def decodeEntities (j : Json) : Option Entities := do
  let colles ← decodeOpt (decodeList decodeStr) (j.getField "colles")
  let castells ← decodeOpt (decodeList decodeCastellRef) (j.getField "castells")
  let anys ← decodeOpt (decodeList decodeNat) (j.getField "anys")
  let llocs ← decodeOpt (decodeList decodeStr) (j.getField "llocs")
  let diades ← decodeOpt (decodeList decodeStr) (j.getField "diades")
  let sql_query_type ← decodeOpt decodeStr (j.getField "sql_query_type")
  some { colles := colles, castells := castells, anys := anys,
         llocs := llocs, diades := diades, sql_query_type := sql_query_type }

def encodeTableData (t : TableData) : Json := .str t.payload

def decodeTableData (j : Json) : Option TableData :=
  (decodeStr j).map TableData.mk

def encodeMessage (m : Message) : Json :=
  .obj [("id", .str m.id),
        ("content", .str m.content),
        ("response", encodeOpt .str m.response),
        ("route_used", .str m.route_used),
        ("timestamp", .num m.timestamp),
        ("response_time_ms", .num m.response_time_ms),
        ("isUser", .bool m.isUser),
        ("table_data", encodeOpt encodeTableData m.table_data),
        ("identified_entities", encodeOpt encodeEntities m.identified_entities)]

def decodeMessage (j : Json) : Option Message := do
  let id ← (j.getField "id").bind decodeStr
  let content ← (j.getField "content").bind decodeStr
  let response ← decodeOpt decodeStr (j.getField "response")
  let route_used ← (j.getField "route_used").bind decodeStr
  let timestamp ← (j.getField "timestamp").bind decodeNat
  let response_time_ms ← (j.getField "response_time_ms").bind decodeNat
  let isUser ← match j.getField "isUser" with
    | some (.bool b) => some b
    | _ => none
  let table_data ← decodeOpt decodeTableData (j.getField "table_data")
  let identified_entities ← decodeOpt decodeEntities (j.getField "identified_entities")
  some { id := id, content := content, response := response,
         route_used := route_used, timestamp := timestamp,
         response_time_ms := response_time_ms, isUser := isUser,
         table_data := table_data, identified_entities := identified_entities }

def encodeMessages (l : List Message) : Json := .arr (l.map encodeMessage)

def decodeMessages : Json → Option (List Message) :=
  decodeList decodeMessage

/-- `saveUnsavedChatToStorage` for an authenticated user: the cache entry is
overwritten with the serialized list only while no session id is active;
otherwise the write is skipped and the cache keeps its previous value. -/
def saveUnsavedChat (sessionId : Option String) (messages : List Message)
    (cache : Option Json) : Option Json :=
  match sessionId with
  | none => some (encodeMessages messages)
  | some _ => cache

/-- Bootstrap environment for `loadHistory` (authenticated user):
the active and previous session ids, the cache entry, and what the remote
history endpoint would return. -/
structure LoadEnv where
  sessionId : Option String
  prevSessionId : Option String
  cache : Option Json
  remoteHistory : List Message

/-- Result of `loadHistory`: the message list it installs, how many
`getChatHistory` network calls it made, and the cache entry afterwards. -/
structure LoadResult where
  messages : List Message
  remoteCalls : Nat
  cacheAfter : Option Json

/-- The `loadHistory` bootstrap: a saved session clears the cache and loads
and sorts the remote history; with no session id, a transition away from a
saved session clears everything, otherwise the cache is restored when it
decodes to a non-empty list (corrupt or empty cache starts fresh). -/
def loadHistory (env : LoadEnv) : LoadResult :=
  match env.sessionId with
  | some _ =>
    { messages := sortMessages env.remoteHistory
      remoteCalls := 1
      cacheAfter := none }
  | none =>
    if env.prevSessionId.isSome then
      { messages := [], remoteCalls := 0, cacheAfter := none }
    else
      match env.cache.bind decodeMessages with
      | some saved =>
        if saved.length > 0 then
          { messages := saved, remoteCalls := 0, cacheAfter := env.cache }
        else
          { messages := [], remoteCalls := 0, cacheAfter := env.cache }
      | none => { messages := [], remoteCalls := 0, cacheAfter := env.cache }

/-! ### Properties of the comparator and the re-sort -/

theorem msgLE_trans (a b c : Message) (hab : msgLE a b = true)
    (hbc : msgLE b c = true) : msgLE a c = true := by
  simp only [msgLE] at *
  split_ifs at * <;> simp_all <;> omega

theorem msgLE_total (a b : Message) : (msgLE a b || msgLE b a) = true := by
  simp only [msgLE]
  split_ifs <;> simp_all

instance : IsTrans Message msgRel :=
  ⟨fun a b c => msgLE_trans a b c⟩

instance : IsTotal Message msgRel :=
  ⟨fun a b => by
    have h := msgLE_total a b
    rcases Bool.or_eq_true_iff.mp h with h' | h'
    · exact Or.inl h'
    · exact Or.inr h'⟩

theorem sortMessages_perm (l : List Message) : (sortMessages l).Perm l :=
  List.perm_insertionSort msgRel l

theorem length_sortMessages (l : List Message) :
    (sortMessages l).length = l.length :=
  (sortMessages_perm l).length_eq

theorem countP_sortMessages (l : List Message) (p : Message → Bool) :
    (sortMessages l).countP p = l.countP p :=
  (sortMessages_perm l).countP_eq p

theorem pairwise_sortMessages (l : List Message) :
    (sortMessages l).Pairwise msgRel :=
  List.sorted_insertionSort msgRel l

/-- Removing the placeholder restores the pre-submission list when the
placeholder id collides with no existing message id. -/
theorem filter_placeholder (ms : List Message) (tid : String) (pm : Message)
    (hpm : pm.id = tid) (hfresh : ∀ m ∈ ms, m.id ≠ tid) :
    (ms ++ [pm]).filter (fun msg => msg.id != tid) = ms := by
  rw [List.filter_append]
  have h1 : ms.filter (fun msg => msg.id != tid) = ms :=
    List.filter_eq_self.mpr (fun m hm => by
      simp only [bne_iff_ne, ne_eq, decide_not]
      simp [hfresh m hm])
  have h2 : [pm].filter (fun msg => msg.id != tid) = [] := by
    simp [hpm]
  rw [h1, h2, List.append_nil]

/-- C1: a submission while a turn is in flight is a no-op. -/
theorem submit_while_loading (s : ChatState) (content : String)
    (env : TurnEnv) (h : s.isLoading = true) :
    (sendMessageContent s content env).state = s ∧
      (sendMessageContent s content env).startCall = none ∧
      (sendMessageContent s content env).entityCalls = [] := by
  simp [sendMessageContent, h]

/-- The poll a given turn runs (its transport outcome). -/
def turnPoll (s : ChatState) (content : String) (env : TurnEnv) :
    List (Entities × Option String) × PollFinal :=
  sendMessageWithPolling content s.sessionId env.startResult env.pollStart
    env.steps

/-- Commit shape: when the guard passes and the poll resolves with `r`, the
new list is the re-sort of the old list plus the finalized user/assistant
pair, the placeholder is gone (its id being fresh), loading has ended, no
error is set, and the start request carried the built context. -/
theorem sendMessageContent_resolved (s : ChatState) (content : String)
    (env : TurnEnv) (r : ChatResponse)
    (hc : jsTrim content ≠ "") (hl : s.isLoading = false)
    (hfresh : ∀ m ∈ s.messages, m.id ≠ tempUserId env.submitNow)
    (hres : (turnPoll s content env).2 = .resolved r) :
    (sendMessageContent s content env).state.messages =
      sortMessages (s.messages ++
        [userMessageFromDb content r, assistantMessage content r]) ∧
    (sendMessageContent s content env).state.isLoading = false ∧
    (sendMessageContent s content env).state.error = "" ∧
    (sendMessageContent s content env).state.sessionId = s.sessionId ∧
    (sendMessageContent s content env).startCall =
      some ⟨content, s.sessionId, buildPreviousContext s.messages⟩ := by
  have hguard : (decide (jsTrim content = "") || s.isLoading) = false := by
    simp [hc, hl]
  have hfilter := filter_placeholder s.messages (tempUserId env.submitNow)
    (placeholderMessage content env.submitNow) rfl hfresh
  simp only [turnPoll] at hres
  simp only [sendMessageContent, hguard, Bool.false_eq_true, if_false, hres]
  simp only [placeholderMessage] at hfilter ⊢
  rw [hfilter]
  simp

/-- Failure shape: when the guard passes and the poll rejects with `e`, the
placeholder is removed and nothing is inserted, the message is stored in
the inline error state, and loading has ended. -/
theorem sendMessageContent_rejected (s : ChatState) (content : String)
    (env : TurnEnv) (e : String)
    (hc : jsTrim content ≠ "") (hl : s.isLoading = false)
    (hfresh : ∀ m ∈ s.messages, m.id ≠ tempUserId env.submitNow)
    (hrej : (turnPoll s content env).2 = .rejected e) :
    (sendMessageContent s content env).state.messages = s.messages ∧
    (sendMessageContent s content env).state.error =
      orElseStr (some e) "Error enviant el missatge" ∧
    (sendMessageContent s content env).state.isLoading = false ∧
    (sendMessageContent s content env).startCall =
      some ⟨content, s.sessionId, buildPreviousContext s.messages⟩ := by
  have hguard : (decide (jsTrim content = "") || s.isLoading) = false := by
    simp [hc, hl]
  have hfilter := filter_placeholder s.messages (tempUserId env.submitNow)
    (placeholderMessage content env.submitNow) rfl hfresh
  simp only [turnPoll] at hrej
  simp only [sendMessageContent, hguard, Bool.false_eq_true, if_false, hrej]
  simp only [placeholderMessage] at hfilter ⊢
  rw [hfilter]
  simp

/-! ### Properties of the poll loop -/

/-- How the promise settles does not depend on the `entitiesReceived`
flag; the flag only gates the `onEntities` callback. -/
theorem pollLoop_snd_flag (content : String) (sid : Option String)
    (mid : String) (ps : Nat) (steps : List PollStep) (b b' : Bool) :
    (pollLoop content sid mid ps steps b).2 =
      (pollLoop content sid mid ps steps b').2 := by
  induction steps generalizing b b' with
  | nil => rfl
  | cons step rest ih =>
    by_cases ht : step.now - ps > MAX_POLL_TIME
    · simp [pollLoop, ht]
    · cases hf : step.fetch with
      | error e => simp [pollLoop, ht, hf]
      | ok st =>
        by_cases hcomp : st.status = "complete"
        · simp [pollLoop, ht, hf, hcomp]
        · by_cases herr : st.status = "error"
          · simp [pollLoop, ht, hf, hcomp, herr]
          · simp only [pollLoop, if_neg ht, hf, if_neg hcomp, if_neg herr]
            exact ih _ _

/-- An in-time, transport-ok response that is neither `complete` nor
`error` (the poll keeps going past it). -/
def stepSkips (ps : Nat) (p : PollStep) : Bool :=
  decide (p.now - ps ≤ MAX_POLL_TIME) &&
    match p.fetch with
    | .ok st => st.status != "complete" && st.status != "error"
    | .error _ => false

/-- A skipped prefix contributes nothing to how the promise settles. -/
theorem pollLoop_snd_skip (content : String) (sid : Option String)
    (mid : String) (ps : Nat) (pre rest : List PollStep)
    (hpre : pre.all (stepSkips ps) = true) (b : Bool) :
    (pollLoop content sid mid ps (pre ++ rest) b).2 =
      (pollLoop content sid mid ps rest false).2 := by
  induction pre generalizing b with
  | nil => simpa using pollLoop_snd_flag content sid mid ps rest b false
  | cons p pre ih =>
    rw [List.all_cons, Bool.and_eq_true] at hpre
    obtain ⟨hp, hpre'⟩ := hpre
    cases hf : p.fetch with
    | error e => simp [stepSkips, hf] at hp
    | ok st =>
      simp only [stepSkips, hf, Bool.and_eq_true, decide_eq_true_eq,
        bne_iff_ne, ne_eq] at hp
      obtain ⟨ht, hcomp, herr⟩ := hp
      have ht' : ¬ (p.now - ps > MAX_POLL_TIME) := by omega
      simp only [List.cons_append, pollLoop, if_neg ht', hf,
        if_neg hcomp, if_neg herr]
      exact ih hpre' _

/-- C4 (poll level): a trace that never reaches a terminal response before
a status check past the ceiling makes the promise reject with the timeout
message. -/
theorem pollLoop_timeout (content : String) (sid : Option String)
    (mid : String) (ps : Nat) (pre : List PollStep) (st : PollStep)
    (rest : List PollStep) (b : Bool)
    (hpre : pre.all (stepSkips ps) = true)
    (ht : st.now - ps > MAX_POLL_TIME) :
    (pollLoop content sid mid ps (pre ++ st :: rest) b).2 =
      .rejected timeoutText := by
  rw [pollLoop_snd_skip content sid mid ps pre (st :: rest) hpre b]
  simp [pollLoop, ht]

/-- The payload the poll resolves with at a `complete` status observed at
instant `now`. -/
def completePayload (content : String) (sid : Option String) (mid : String)
    (now : Nat) (stat : StatusResponse) : ChatResponse :=
  { id := mid
    content := content
    response := stat.response
    route_used := orElseStr stat.route_used "unknown"
    timestamp := now
    response_time_ms := stat.response_time_ms.getD 0
    session_id := sid
    table_data := stat.table_data
    identified_entities := stat.identified_entities }

/-- The synthetic payload the poll resolves with at an `error` status. -/
def backendErrorPayload (content : String) (sid : Option String)
    (mid : String) (now : Nat) (stat : StatusResponse) : ChatResponse :=
  { id := mid
    content := content
    response := some (orElseStr stat.error_message genericErrorText)
    route_used := "error"
    timestamp := now
    response_time_ms := 0
    session_id := sid
    table_data := none
    identified_entities := none }

/-- C5 (poll level): a backend-reported failure settles the promise by
resolution with the synthetic in-band payload, regardless of the rest of
the trace. -/
theorem pollLoop_backend_error (content : String) (sid : Option String)
    (mid : String) (ps : Nat) (pre : List PollStep) (st : PollStep)
    (stat : StatusResponse) (rest : List PollStep) (b : Bool)
    (hpre : pre.all (stepSkips ps) = true)
    (ht : st.now - ps ≤ MAX_POLL_TIME)
    (hf : st.fetch = .ok stat) (hs : stat.status = "error") :
    (pollLoop content sid mid ps (pre ++ st :: rest) b).2 =
      .resolved (backendErrorPayload content sid mid st.now stat) := by
  rw [pollLoop_snd_skip content sid mid ps pre (st :: rest) hpre b]
  have ht' : ¬ (st.now - ps > MAX_POLL_TIME) := by omega
  have hs' : stat.status ≠ "complete" := by rw [hs]; decide
  simp [pollLoop, ht', hf, hs, hs', backendErrorPayload]

/-- A `complete` status resolves the poll with the full payload stamped
with the resolution instant, regardless of the rest of the trace. -/
theorem pollLoop_complete (content : String) (sid : Option String)
    (mid : String) (ps : Nat) (pre : List PollStep) (st : PollStep)
    (stat : StatusResponse) (rest : List PollStep) (b : Bool)
    (hpre : pre.all (stepSkips ps) = true)
    (ht : st.now - ps ≤ MAX_POLL_TIME)
    (hf : st.fetch = .ok stat) (hs : stat.status = "complete") :
    (pollLoop content sid mid ps (pre ++ st :: rest) b).2 =
      .resolved (completePayload content sid mid st.now stat) := by
  rw [pollLoop_snd_skip content sid mid ps pre (st :: rest) hpre b]
  have ht' : ¬ (st.now - ps > MAX_POLL_TIME) := by omega
  simp [pollLoop, ht', hf, hs, completePayload]

/-- Once the flag is set, `onEntities` is never called again. -/
theorem pollLoop_calls_flagged (content : String) (sid : Option String)
    (mid : String) (ps : Nat) (steps : List PollStep) :
    (pollLoop content sid mid ps steps true).1 = [] := by
  induction steps with
  | nil => rfl
  | cons step rest ih =>
    by_cases ht : step.now - ps > MAX_POLL_TIME
    · simp [pollLoop, ht]
    · cases hf : step.fetch with
      | error e => simp [pollLoop, ht, hf]
      | ok st =>
        by_cases hcomp : st.status = "complete"
        · simp [pollLoop, ht, hf, hcomp]
        · by_cases herr : st.status = "error"
          · simp [pollLoop, ht, hf, hcomp, herr]
          · simp only [pollLoop, if_neg ht, hf, if_neg hcomp, if_neg herr]
            simpa using ih

/-- The `onEntities` callback fires at most once per job. -/
theorem pollLoop_calls_once (content : String) (sid : Option String)
    (mid : String) (ps : Nat) (steps : List PollStep) :
    (pollLoop content sid mid ps steps false).1.length ≤ 1 := by
  induction steps with
  | nil => simp [pollLoop]
  | cons step rest ih =>
    by_cases ht : step.now - ps > MAX_POLL_TIME
    · simp [pollLoop, ht]
    · cases hf : step.fetch with
      | error e => simp [pollLoop, ht, hf]
      | ok st =>
        by_cases hfire : (!false && st.identified_entities.isSome &&
            (st.status == "entities_ready" || st.status == "complete")) = true
        · by_cases hcomp : st.status = "complete"
          · simp only [pollLoop, if_neg ht, hf, if_pos hfire, if_pos hcomp]
            cases hent : st.identified_entities with
            | none => simp
            | some ents => simp
          · by_cases herr : st.status = "error"
            · simp only [pollLoop, if_neg ht, hf, if_pos hfire, if_neg hcomp,
                if_pos herr]
              cases hent : st.identified_entities with
              | none => simp
              | some ents => simp
            · simp only [pollLoop, if_neg ht, hf, if_pos hfire, if_neg hcomp,
                if_neg herr]
              rw [hfire]
              simp only [Bool.false_or, Bool.true_and] at hfire ⊢
              rw [pollLoop_calls_flagged]
              cases hent : st.identified_entities with
              | none => simp
              | some ents => simp
        · by_cases hcomp : st.status = "complete"
          · simp only [pollLoop, if_neg ht, hf, if_neg hfire, if_pos hcomp]
            simp
          · by_cases herr : st.status = "error"
            · simp only [pollLoop, if_neg ht, hf, if_neg hfire, if_neg hcomp,
                if_pos herr]
              simp
            · simp only [pollLoop, if_neg ht, hf, if_neg hfire, if_neg hcomp,
                if_neg herr]
              have hb : (false || (!false && st.identified_entities.isSome &&
                  (st.status == "entities_ready" || st.status == "complete"))) = false := by
                simp only [Bool.false_or]
                exact Bool.not_eq_true _ ▸ (by simpa using hfire)
              simp only [Bool.false_or] at hb ⊢
              rw [hb]
              simpa using ih

/-! ### Serialization round trip for the local cache -/

theorem decode_encode_castellRef (c : CastellRef) :
    decodeCastellRef (encodeCastellRef c) = some c := by
  cases c <;> simp [encodeCastellRef, decodeCastellRef, List.lookup]

theorem mapM_map_of_decode {α : Type} (enc : α → Json) (dec : Json → Option α)
    (h : ∀ a, dec (enc a) = some a) (l : List α) :
    (l.map enc).mapM dec = some l := by
  induction l with
  | nil => rfl
  | cons a l ih => rw [List.map_cons, List.mapM_cons, h, ih]; rfl

theorem decode_encode_strList (l : List String) :
    decodeList decodeStr (.arr (l.map Json.str)) = some l := by
  simp only [decodeList]
  exact mapM_map_of_decode Json.str decodeStr (fun a => rfl) l

theorem decode_encode_natList (l : List Nat) :
    decodeList decodeNat (.arr (l.map Json.num)) = some l := by
  simp only [decodeList]
  exact mapM_map_of_decode Json.num decodeNat (fun a => rfl) l

theorem decode_encode_castellList (l : List CastellRef) :
    decodeList decodeCastellRef (.arr (l.map encodeCastellRef)) = some l := by
  simp only [decodeList]
  exact mapM_map_of_decode _ _ decode_encode_castellRef l

theorem decode_encode_entities (e : Entities) :
    decodeEntities (encodeEntities e) = some e := by
  obtain ⟨colles, castells, anys, llocs, diades, sqt⟩ := e
  cases colles <;> cases castells <;> cases anys <;> cases llocs <;>
    cases diades <;> cases sqt <;>
    simp [encodeEntities, decodeEntities, Json.getField, List.lookup,
      encodeOpt, decodeOpt, decode_encode_strList, decode_encode_natList,
      decode_encode_castellList, decodeStr, encodeStrList, encodeNatList]

theorem decodeOpt_encodeOpt {α : Type} (enc : α → Json)
    (dec : Json → Option α) (hnn : ∀ a, enc a ≠ .null)
    (h : ∀ a, dec (enc a) = some a) (o : Option α) :
    decodeOpt dec (some (encodeOpt enc o)) = some o := by
  cases o with
  | none => rfl
  | some a =>
    have ha := h a
    cases henc : enc a with
    | null => exact absurd henc (hnn a)
    | str s => rw [henc] at ha; simp [encodeOpt, henc, decodeOpt, ha]
    | num n => rw [henc] at ha; simp [encodeOpt, henc, decodeOpt, ha]
    | bool b => rw [henc] at ha; simp [encodeOpt, henc, decodeOpt, ha]
    | arr es => rw [henc] at ha; simp [encodeOpt, henc, decodeOpt, ha]
    | obj fs => rw [henc] at ha; simp [encodeOpt, henc, decodeOpt, ha]

theorem decode_encode_message (m : Message) :
    decodeMessage (encodeMessage m) = some m := by
  have hresp := decodeOpt_encodeOpt Json.str decodeStr
    (fun a hh => by simp at hh) (fun a => rfl) m.response
  have htd := decodeOpt_encodeOpt encodeTableData decodeTableData
    (fun a hh => by simp [encodeTableData] at hh) (fun a => rfl) m.table_data
  have hents := decodeOpt_encodeOpt encodeEntities decodeEntities
    (fun a hh => by simp [encodeEntities] at hh) decode_encode_entities
    m.identified_entities
  simp [encodeMessage, decodeMessage, Json.getField, List.lookup,
    decodeStr, decodeNat, hresp, htd, hents]

theorem decode_encode_messages (l : List Message) :
    decodeMessages (encodeMessages l) = some l := by
  simp only [encodeMessages, decodeMessages, decodeList]
  exact mapM_map_of_decode _ _ decode_encode_message l

/-! ### Claim theorems and witnesses -/

def demoLoadingState : ChatState := { messages := [], isLoading := true }

def demoIdleEnv : TurnEnv :=
  { submitNow := 1, startResult := .ok "m0", pollStart := 0, steps := [] }

/-- Witness for C1: a concrete in-flight state rejects a submission
unchanged. -/
theorem submit_while_loading_witness :
    demoLoadingState.isLoading = true ∧
      ((sendMessageContent demoLoadingState "Hola" demoIdleEnv).state =
          demoLoadingState ∧
        (sendMessageContent demoLoadingState "Hola" demoIdleEnv).startCall =
          none ∧
        (sendMessageContent demoLoadingState "Hola" demoIdleEnv).entityCalls =
          []) :=
  ⟨rfl, submit_while_loading demoLoadingState "Hola" demoIdleEnv rfl⟩

/-- Trace of C2's scenario: `submitted, submitted, partial(E1),
partial(E1), terminal(answer = A, entities = E1)`, in the wire statuses
the poller matches on. -/
def c2trace (E1 : Entities) (A r : String) (rt t1 t2 t3 t4 t5 : Nat) :
    List PollStep :=
  [⟨t1, .ok { status := "submitted" }⟩,
   ⟨t2, .ok { status := "submitted" }⟩,
   ⟨t3, .ok { status := "entities_ready", identified_entities := some E1,
              route_used := some r }⟩,
   ⟨t4, .ok { status := "entities_ready", identified_entities := some E1,
              route_used := some r }⟩,
   ⟨t5, .ok { status := "complete", identified_entities := some E1,
              route_used := some r, response := some A,
              response_time_ms := some rt }⟩]

/-- C2: on the status sequence `submitted, submitted, partial(E1),
partial(E1), terminal(A, E1)` the `onEntities` callback fires exactly once,
with `E1`, and the terminal payload carries both `A` and `E1`; in general
the callback fires at most once per job, and never once the flag is set,
even if later polls re-send entities. -/
theorem entities_callback_once (content mid : String) (sid : Option String)
    (E1 : Entities) (A r : String) (rt ps t1 t2 t3 t4 t5 : Nat)
    (h1 : t1 - ps ≤ MAX_POLL_TIME) (h2 : t2 - ps ≤ MAX_POLL_TIME)
    (h3 : t3 - ps ≤ MAX_POLL_TIME) (h4 : t4 - ps ≤ MAX_POLL_TIME)
    (h5 : t5 - ps ≤ MAX_POLL_TIME) :
    (pollLoop content sid mid ps (c2trace E1 A r rt t1 t2 t3 t4 t5)
        false).1 = [(E1, some r)] ∧
    (∃ payload,
      (pollLoop content sid mid ps (c2trace E1 A r rt t1 t2 t3 t4 t5)
          false).2 = .resolved payload ∧
      payload.response = some A ∧ payload.identified_entities = some E1) ∧
    (∀ steps : List PollStep,
      (pollLoop content sid mid ps steps false).1.length ≤ 1) ∧
    (∀ steps : List PollStep,
      (pollLoop content sid mid ps steps true).1 = []) := by
  have n1 : ¬ (t1 - ps > MAX_POLL_TIME) := by omega
  have n2 : ¬ (t2 - ps > MAX_POLL_TIME) := by omega
  have n3 : ¬ (t3 - ps > MAX_POLL_TIME) := by omega
  have n4 : ¬ (t4 - ps > MAX_POLL_TIME) := by omega
  have n5 : ¬ (t5 - ps > MAX_POLL_TIME) := by omega
  refine ⟨?_, ⟨?_, ?_, ?_⟩⟩
  · simp [c2trace, pollLoop, n1, n2, n3, n4, n5]
  · have hc : (pollLoop content sid mid ps (c2trace E1 A r rt t1 t2 t3 t4 t5)
        false).2 = .resolved (completePayload content sid mid t5
          ⟨"complete", some E1, some r, some A, some rt, none, none⟩) := by
      simp [c2trace, pollLoop, n1, n2, n3, n4, n5, completePayload]
    exact ⟨_, hc, rfl, rfl⟩
  · exact fun steps => pollLoop_calls_once content sid mid ps steps
  · exact fun steps => pollLoop_calls_flagged content sid mid ps steps

/-- Witness for C2 at concrete entities, answer, and poll instants. -/
theorem entities_callback_once_witness :
    ((300 : Nat) - 0 ≤ MAX_POLL_TIME ∧ (600 : Nat) - 0 ≤ MAX_POLL_TIME ∧
     (900 : Nat) - 0 ≤ MAX_POLL_TIME ∧ (1200 : Nat) - 0 ≤ MAX_POLL_TIME ∧
     (1500 : Nat) - 0 ≤ MAX_POLL_TIME) ∧
    ((pollLoop "q" none "m1" 0
        (c2trace { colles := some ["Vella"] } "resposta" "sql" 42
          300 600 900 1200 1500) false).1 =
      [({ colles := some ["Vella"] }, some "sql")] ∧
    (∃ payload,
      (pollLoop "q" none "m1" 0
        (c2trace { colles := some ["Vella"] } "resposta" "sql" 42
          300 600 900 1200 1500) false).2 = .resolved payload ∧
      payload.response = some "resposta" ∧
      payload.identified_entities = some { colles := some ["Vella"] }) ∧
    (∀ steps : List PollStep,
      (pollLoop "q" none "m1" 0 steps false).1.length ≤ 1) ∧
    (∀ steps : List PollStep,
      (pollLoop "q" none "m1" 0 steps true).1 = [])) :=
  ⟨⟨by decide, by decide, by decide, by decide, by decide⟩,
    entities_callback_once "q" "m1" none { colles := some ["Vella"] }
      "resposta" "sql" 42 0 300 600 900 1200 1500
      (by decide) (by decide) (by decide) (by decide) (by decide)⟩

def c4env : TurnEnv :=
  { submitNow := 100, startResult := .ok "m1", pollStart := 0,
    steps := [⟨60301, .ok { status := "submitted" }⟩] }

/-- C4 counterexample: the claim says a timed-out job resolves to a
committed Failed assistant message carrying the "took too long" string; at
this input (start succeeded, first status check at 60301 ms) the committed
list ends empty — no assistant message exists — and the string is surfaced
only through the inline error state. -/
theorem polling_timeout_counterexample :
    (sendMessageContent emptyState "Quants pilars?" c4env).state.messages =
      [] ∧
    (sendMessageContent emptyState "Quants pilars?" c4env).state.error =
      timeoutText := by
  constructor <;> rfl

/-- C4 (amended): a job that never reaches a terminal response before a
status check past the 60-second ceiling makes the poll reject with the
"took too long" message; the catch handler removes the placeholder, stores
the text in the inline error state, and commits no assistant message. -/
theorem polling_timeout_inline_error (s : ChatState) (content : String)
    (env : TurnEnv) (mid : String) (pre : List PollStep) (st : PollStep)
    (rest : List PollStep)
    (hc : jsTrim content ≠ "") (hl : s.isLoading = false)
    (hfresh : ∀ m ∈ s.messages, m.id ≠ tempUserId env.submitNow)
    (hstart : env.startResult = .ok mid)
    (hsteps : env.steps = pre ++ st :: rest)
    (hpre : pre.all (stepSkips env.pollStart) = true)
    (ht : st.now - env.pollStart > MAX_POLL_TIME) :
    (sendMessageContent s content env).state.messages = s.messages ∧
    (sendMessageContent s content env).state.error = timeoutText ∧
    (sendMessageContent s content env).state.isLoading = false := by
  have hrej : (turnPoll s content env).2 = .rejected timeoutText := by
    simp only [turnPoll, sendMessageWithPolling, hstart, hsteps]
    exact pollLoop_timeout content s.sessionId mid env.pollStart pre st rest
      false hpre ht
  obtain ⟨hm, he, hload, _⟩ :=
    sendMessageContent_rejected s content env timeoutText hc hl hfresh hrej
  exact ⟨hm, by rw [he]; rfl, hload⟩

def c4witEnv : TurnEnv :=
  { submitNow := 100, startResult := .ok "m9", pollStart := 0,
    steps := [⟨70000, .ok { status := "submitted" }⟩] }

/-- Witness for the amended C4 at a concrete over-ceiling trace. -/
theorem polling_timeout_inline_error_witness :
    (jsTrim "On actua la Jove?" ≠ "" ∧ emptyState.isLoading = false ∧
      c4witEnv.startResult = .ok "m9" ∧
      (70000 : Nat) - c4witEnv.pollStart > MAX_POLL_TIME) ∧
    ((sendMessageContent emptyState "On actua la Jove?" c4witEnv).state.messages
        = emptyState.messages ∧
      (sendMessageContent emptyState "On actua la Jove?" c4witEnv).state.error
        = timeoutText ∧
      (sendMessageContent emptyState "On actua la Jove?" c4witEnv).state.isLoading
        = false) :=
  ⟨⟨by decide, rfl, rfl, by decide⟩,
    polling_timeout_inline_error emptyState "On actua la Jove?" c4witEnv "m9"
      [] ⟨70000, .ok { status := "submitted" }⟩ []
      (by decide) rfl (by simp [emptyState]) rfl rfl rfl (by decide)⟩

/-- C5: a backend-reported `error` status resolves the poll — it does not
reject — with a synthetic in-band payload whose text is the backend
message verbatim when present and non-empty, and the generic fallback
otherwise; the resolution ignores the rest of the trace (polling stops),
and the orchestrator commits the payload as a normal assistant turn with
no inline error. -/
theorem backend_failure_resolves_in_band (s : ChatState) (content : String)
    (env : TurnEnv) (mid : String) (pre : List PollStep) (st : PollStep)
    (stat : StatusResponse) (rest : List PollStep)
    (hc : jsTrim content ≠ "") (hl : s.isLoading = false)
    (hfresh : ∀ m ∈ s.messages, m.id ≠ tempUserId env.submitNow)
    (hstart : env.startResult = .ok mid)
    (hsteps : env.steps = pre ++ st :: rest)
    (hpre : pre.all (stepSkips env.pollStart) = true)
    (ht : st.now - env.pollStart ≤ MAX_POLL_TIME)
    (hf : st.fetch = .ok stat) (hs : stat.status = "error") :
    (turnPoll s content env).2 =
      .resolved (backendErrorPayload content s.sessionId mid st.now stat) ∧
    (∀ em, stat.error_message = some em → em ≠ "" →
      (backendErrorPayload content s.sessionId mid st.now stat).response =
        some em) ∧
    (stat.error_message = none →
      (backendErrorPayload content s.sessionId mid st.now stat).response =
        some genericErrorText) ∧
    (sendMessageContent s content env).state.messages =
      sortMessages (s.messages ++
        [userMessageFromDb content
          (backendErrorPayload content s.sessionId mid st.now stat),
         assistantMessage content
          (backendErrorPayload content s.sessionId mid st.now stat)]) ∧
    (sendMessageContent s content env).state.error = "" ∧
    (sendMessageContent s content env).state.isLoading = false := by
  have hres : (turnPoll s content env).2 =
      .resolved (backendErrorPayload content s.sessionId mid st.now stat) := by
    simp only [turnPoll, sendMessageWithPolling, hstart, hsteps]
    exact pollLoop_backend_error content s.sessionId mid env.pollStart pre st
      stat rest false hpre ht hf hs
  obtain ⟨hm, hload, he, _, _⟩ :=
    sendMessageContent_resolved s content env _ hc hl hfresh hres
  refine ⟨hres, ?_, ?_, hm, he, hload⟩
  · intro em hem hne
    simp [backendErrorPayload, orElseStr, hem, hne]
  · intro hem
    simp [backendErrorPayload, orElseStr, hem]

def c5env : TurnEnv :=
  { submitNow := 100, startResult := .ok "m5", pollStart := 0,
    steps := [⟨300, .ok { status := "submitted" }⟩,
              ⟨600, .ok { status := "error",
                          error_message := some "No ho entenc" }⟩] }

def c5stat : StatusResponse :=
  { status := "error", error_message := some "No ho entenc" }

/-- Witness for C5 at a concrete backend-failure trace. -/
theorem backend_failure_resolves_in_band_witness :
    (jsTrim "Que es un 3de10?" ≠ "" ∧ c5env.startResult = .ok "m5" ∧
      c5stat.status = "error" ∧
      (600 : Nat) - c5env.pollStart ≤ MAX_POLL_TIME) ∧
    ((turnPoll emptyState "Que es un 3de10?" c5env).2 =
      .resolved (backendErrorPayload "Que es un 3de10?" none "m5" 600 c5stat) ∧
    (∀ em, c5stat.error_message = some em → em ≠ "" →
      (backendErrorPayload "Que es un 3de10?" none "m5" 600 c5stat).response =
        some em) ∧
    (c5stat.error_message = none →
      (backendErrorPayload "Que es un 3de10?" none "m5" 600 c5stat).response =
        some genericErrorText) ∧
    (sendMessageContent emptyState "Que es un 3de10?" c5env).state.messages =
      sortMessages (emptyState.messages ++
        [userMessageFromDb "Que es un 3de10?"
          (backendErrorPayload "Que es un 3de10?" none "m5" 600 c5stat),
         assistantMessage "Que es un 3de10?"
          (backendErrorPayload "Que es un 3de10?" none "m5" 600 c5stat)]) ∧
    (sendMessageContent emptyState "Que es un 3de10?" c5env).state.error = "" ∧
    (sendMessageContent emptyState "Que es un 3de10?" c5env).state.isLoading =
      false) :=
  ⟨⟨by decide, rfl, rfl, by decide⟩,
    backend_failure_resolves_in_band emptyState "Que es un 3de10?" c5env "m5"
      [⟨300, .ok { status := "submitted" }⟩]
      ⟨600, .ok c5stat⟩ c5stat [] (by decide) rfl (by simp [emptyState]) rfl
      rfl (by decide) (by decide) rfl rfl⟩

def c6env : TurnEnv :=
  { submitNow := 200, startResult := .ok "m2", pollStart := 0,
    steps := [⟨61000, .ok { status := "submitted" }⟩] }

/-- C6 counterexample: the claim says a submission-time transport exception
is the only failure mode that propagates as an exception rather than an
in-band conversation entry; here the start call succeeded and the turn
still ends on the exception path — inline error set, no in-band assistant
entry committed — because the poll timed out. -/
theorem submission_exception_exclusivity_counterexample :
    c6env.startResult = .ok "m2" ∧
    (sendMessageContent emptyState "Quantes colles?" c6env).state.error =
      timeoutText ∧
    (sendMessageContent emptyState "Quantes colles?" c6env).state.messages =
      [] := by
  refine ⟨rfl, ?_, ?_⟩ <;> rfl

/-- C6 (amended): a transport exception on the start call aborts the turn
atomically: the placeholder is removed, no assistant message is inserted,
and the error text is surfaced through the inline error state; this
exception path is shared with polling failures (timeout, status-poll
transport errors) rather than being exclusive to submission-time errors,
while backend-reported failures are committed in-band. -/
theorem start_exception_aborts_turn (s : ChatState) (content : String)
    (env : TurnEnv) (e : String)
    (hc : jsTrim content ≠ "") (hl : s.isLoading = false)
    (hfresh : ∀ m ∈ s.messages, m.id ≠ tempUserId env.submitNow)
    (hstart : env.startResult = .error e) :
    (sendMessageContent s content env).state.messages = s.messages ∧
    (sendMessageContent s content env).state.error =
      orElseStr (some e) "Error enviant el missatge" ∧
    (sendMessageContent s content env).state.isLoading = false ∧
    (sendMessageContent s content env).startCall =
      some ⟨content, s.sessionId, buildPreviousContext s.messages⟩ := by
  have hrej : (turnPoll s content env).2 = .rejected e := by
    simp [turnPoll, sendMessageWithPolling, hstart]
  exact sendMessageContent_rejected s content env e hc hl hfresh hrej

def c6witEnv : TurnEnv :=
  { submitNow := 300, startResult := .error "HTTP 500: boom", pollStart := 0,
    steps := [] }

/-- Witness for the amended C6 at a concrete failing start call. -/
theorem start_exception_aborts_turn_witness :
    (jsTrim "Quants castells?" ≠ "" ∧ emptyState.isLoading = false ∧
      c6witEnv.startResult = .error "HTTP 500: boom") ∧
    ((sendMessageContent emptyState "Quants castells?" c6witEnv).state.messages
        = emptyState.messages ∧
      (sendMessageContent emptyState "Quants castells?" c6witEnv).state.error =
        orElseStr (some "HTTP 500: boom") "Error enviant el missatge" ∧
      (sendMessageContent emptyState "Quants castells?" c6witEnv).state.isLoading
        = false ∧
      (sendMessageContent emptyState "Quants castells?" c6witEnv).startCall =
        some ⟨"Quants castells?", emptyState.sessionId,
          buildPreviousContext emptyState.messages⟩) :=
  ⟨⟨by decide, rfl, rfl⟩,
    start_exception_aborts_turn emptyState "Quants castells?" c6witEnv
      "HTTP 500: boom" (by decide) rfl (by simp [emptyState]) rfl⟩

/-- C10: a backend-failure turn commits an assistant message whose
`route_used` is `"error"`, whose `response_time_ms` is `0`, and which
carries neither identified entities nor table data. -/
theorem error_turn_commit_fields (s : ChatState) (content : String)
    (env : TurnEnv) (mid : String) (pre : List PollStep) (st : PollStep)
    (stat : StatusResponse) (rest : List PollStep)
    (hc : jsTrim content ≠ "") (hl : s.isLoading = false)
    (hfresh : ∀ m ∈ s.messages, m.id ≠ tempUserId env.submitNow)
    (hstart : env.startResult = .ok mid)
    (hsteps : env.steps = pre ++ st :: rest)
    (hpre : pre.all (stepSkips env.pollStart) = true)
    (ht : st.now - env.pollStart ≤ MAX_POLL_TIME)
    (hf : st.fetch = .ok stat) (hs : stat.status = "error") :
    ∃ r, (turnPoll s content env).2 = .resolved r ∧
      r.route_used = "error" ∧ r.response_time_ms = 0 ∧
      r.table_data = none ∧ r.identified_entities = none ∧
      (sendMessageContent s content env).state.messages =
        sortMessages (s.messages ++
          [userMessageFromDb content r, assistantMessage content r]) ∧
      (assistantMessage content r).route_used = "error" ∧
      (assistantMessage content r).response_time_ms = 0 ∧
      (assistantMessage content r).table_data = none ∧
      (assistantMessage content r).identified_entities = none := by
  have hres : (turnPoll s content env).2 =
      .resolved (backendErrorPayload content s.sessionId mid st.now stat) := by
    simp only [turnPoll, sendMessageWithPolling, hstart, hsteps]
    exact pollLoop_backend_error content s.sessionId mid env.pollStart pre st
      stat rest false hpre ht hf hs
  obtain ⟨hm, _, _, _, _⟩ :=
    sendMessageContent_resolved s content env _ hc hl hfresh hres
  exact ⟨backendErrorPayload content s.sessionId mid st.now stat, hres, rfl,
    rfl, rfl, rfl, hm, rfl, rfl, rfl, rfl⟩

def c10env : TurnEnv :=
  { submitNow := 50, startResult := .ok "m10", pollStart := 0,
    steps := [⟨400, .ok { status := "error", error_message := some "Av." }⟩] }

def c10stat : StatusResponse :=
  { status := "error", error_message := some "Av." }

/-- Witness for C10 at a concrete backend-failure trace. -/
theorem error_turn_commit_fields_witness :
    (jsTrim "Quin es el pilar mes alt?" ≠ "" ∧
      c10env.startResult = .ok "m10" ∧ c10stat.status = "error" ∧
      (400 : Nat) - c10env.pollStart ≤ MAX_POLL_TIME) ∧
    (∃ r, (turnPoll emptyState "Quin es el pilar mes alt?" c10env).2 =
        .resolved r ∧
      r.route_used = "error" ∧ r.response_time_ms = 0 ∧
      r.table_data = none ∧ r.identified_entities = none ∧
      (sendMessageContent emptyState "Quin es el pilar mes alt?"
          c10env).state.messages =
        sortMessages (emptyState.messages ++
          [userMessageFromDb "Quin es el pilar mes alt?" r,
           assistantMessage "Quin es el pilar mes alt?" r]) ∧
      (assistantMessage "Quin es el pilar mes alt?" r).route_used = "error" ∧
      (assistantMessage "Quin es el pilar mes alt?" r).response_time_ms = 0 ∧
      (assistantMessage "Quin es el pilar mes alt?" r).table_data = none ∧
      (assistantMessage "Quin es el pilar mes alt?" r).identified_entities =
        none) :=
  ⟨⟨by decide, rfl, rfl, by decide⟩,
    error_turn_commit_fields emptyState "Quin es el pilar mes alt?" c10env
      "m10" [] ⟨400, .ok c10stat⟩ c10stat []
      (by decide) rfl (by simp [emptyState]) rfl rfl rfl (by decide) rfl rfl⟩

/-- Whatever the poll does afterwards, an accepted submission sends the
start request with the context built from the pre-submission list. -/
theorem sendMessageContent_startCall (s : ChatState) (content : String)
    (env : TurnEnv) (hc : jsTrim content ≠ "") (hl : s.isLoading = false) :
    (sendMessageContent s content env).startCall =
      some ⟨content, s.sessionId, buildPreviousContext s.messages⟩ := by
  have hguard : (decide (jsTrim content = "") || s.isLoading) = false := by
    simp [hc, hl]
  simp only [sendMessageContent, hguard, Bool.false_eq_true, if_false]
  cases hfin : (sendMessageWithPolling content s.sessionId env.startResult
      env.pollStart env.steps).2 <;> simp [hfin]

/-- C7: every accepted submission passes `previousContext` built from the
most recent committed assistant message — its question, its answer
truncated to 300 characters, its route, and its identified entity
categories — and passes no context at all (`null`, not an empty object)
when no committed assistant message exists. -/
theorem previous_context_to_start (s : ChatState) (content : String)
    (env : TurnEnv) (hc : jsTrim content ≠ "") (hl : s.isLoading = false) :
    ((sendMessageContent s content env).startCall =
      some ⟨content, s.sessionId, buildPreviousContext s.messages⟩) ∧
    (s.messages.filter (fun m => !m.isUser && truthyStr m.response) = [] →
      buildPreviousContext s.messages = none) ∧
    (∀ la, (s.messages.filter
        (fun m => !m.isUser && truthyStr m.response)).getLast? = some la →
      buildPreviousContext s.messages = some {
        question := la.content
        response := la.response.map (fun a => a.take 300)
        route := strOrNull la.route_used
        sql_query_type :=
          match (la.identified_entities.getD {}).sql_query_type with
          | none => none
          | some str => strOrNull str
        colles := (la.identified_entities.getD {}).colles.getD []
        castells := ((la.identified_entities.getD {}).castells.getD []).map
          castellRefCode
        anys := (la.identified_entities.getD {}).anys.getD []
        llocs := (la.identified_entities.getD {}).llocs.getD []
        diades := (la.identified_entities.getD {}).diades.getD [] }) := by
  refine ⟨sendMessageContent_startCall s content env hc hl, ?_, ?_⟩
  · intro hfil
    simp [buildPreviousContext, hfil]
  · intro la hla
    simp [buildPreviousContext, hla]

def c7assistant : Message :=
  { id := "a1", content := "Quants castells ha fet la Vella?",
    response := some "La Vella ha descarregat 100 castells aquesta temporada.",
    route_used := "sql", timestamp := 10, response_time_ms := 5,
    isUser := false, table_data := none,
    identified_entities := some { colles := some ["Vella"],
                                  sql_query_type := some "count" } }

def c7state : ChatState := { messages := [c7assistant] }

/-- Witness for C7 at a one-assistant-message state. -/
theorem previous_context_to_start_witness :
    (jsTrim "I la Jove?" ≠ "" ∧ c7state.isLoading = false) ∧
    (((sendMessageContent c7state "I la Jove?" demoIdleEnv).startCall =
      some ⟨"I la Jove?", c7state.sessionId,
        buildPreviousContext c7state.messages⟩) ∧
    (c7state.messages.filter (fun m => !m.isUser && truthyStr m.response) =
        [] → buildPreviousContext c7state.messages = none) ∧
    (∀ la, (c7state.messages.filter
        (fun m => !m.isUser && truthyStr m.response)).getLast? = some la →
      buildPreviousContext c7state.messages = some {
        question := la.content
        response := la.response.map (fun a => a.take 300)
        route := strOrNull la.route_used
        sql_query_type :=
          match (la.identified_entities.getD {}).sql_query_type with
          | none => none
          | some str => strOrNull str
        colles := (la.identified_entities.getD {}).colles.getD []
        castells := ((la.identified_entities.getD {}).castells.getD []).map
          castellRefCode
        anys := (la.identified_entities.getD {}).anys.getD []
        llocs := (la.identified_entities.getD {}).llocs.getD []
        diades := (la.identified_entities.getD {}).diades.getD [] })) :=
  ⟨⟨by decide, rfl⟩,
    previous_context_to_start c7state "I la Jove?" demoIdleEnv
      (by decide) rfl⟩

def c9env : TurnEnv :=
  { submitNow := 100, startResult := .ok "m3", pollStart := 0,
    steps := [⟨5000, .ok { status := "complete", response := some "R" }⟩] }

/-- C9 counterexample: a turn submitted at instant 100 whose answer
resolves at instant 5000 commits a finalized user message stamped 5000 —
the submission-time timestamp of the placeholder is discarded, not
preserved. -/
theorem commit_timestamp_counterexample :
    c9env.submitNow = 100 ∧
    ((sendMessageContent emptyState "Quan es la diada?" c9env).state.messages.map
      (fun m => (m.isUser, m.timestamp))) = [(true, 5000), (false, 5000)] :=
  ⟨rfl, rfl⟩

/-- C9 (amended): at commit, both the finalized user message and the
assistant message carry `response.timestamp`, the clock reading at the
moment the terminal resolution was observed; the user message's creation
timestamp is replaced rather than preserved. -/
theorem commit_uses_resolution_timestamp (s : ChatState) (content : String)
    (env : TurnEnv) (mid : String) (pre : List PollStep) (st : PollStep)
    (stat : StatusResponse) (rest : List PollStep)
    (hc : jsTrim content ≠ "") (hl : s.isLoading = false)
    (hfresh : ∀ m ∈ s.messages, m.id ≠ tempUserId env.submitNow)
    (hstart : env.startResult = .ok mid)
    (hsteps : env.steps = pre ++ st :: rest)
    (hpre : pre.all (stepSkips env.pollStart) = true)
    (ht : st.now - env.pollStart ≤ MAX_POLL_TIME)
    (hf : st.fetch = .ok stat) (hs : stat.status = "complete") :
    ∃ r, (turnPoll s content env).2 = .resolved r ∧
      r.timestamp = st.now ∧
      (sendMessageContent s content env).state.messages =
        sortMessages (s.messages ++
          [userMessageFromDb content r, assistantMessage content r]) ∧
      (userMessageFromDb content r).timestamp = st.now ∧
      (assistantMessage content r).timestamp = st.now := by
  have hres : (turnPoll s content env).2 =
      .resolved (completePayload content s.sessionId mid st.now stat) := by
    simp only [turnPoll, sendMessageWithPolling, hstart, hsteps]
    exact pollLoop_complete content s.sessionId mid env.pollStart pre st stat
      rest false hpre ht hf hs
  obtain ⟨hm, _, _, _, _⟩ :=
    sendMessageContent_resolved s content env _ hc hl hfresh hres
  exact ⟨completePayload content s.sessionId mid st.now stat, hres, rfl, hm,
    rfl, rfl⟩

def c9witEnv : TurnEnv :=
  { submitNow := 100, startResult := .ok "m7", pollStart := 0,
    steps := [⟨4000, .ok { status := "complete", response := some "R7" }⟩] }

def c9witStat : StatusResponse :=
  { status := "complete", response := some "R7" }

/-- Witness for the amended C9 at a concrete completing trace. -/
theorem commit_uses_resolution_timestamp_witness :
    (jsTrim "Quan es la diada de Sant Felix?" ≠ "" ∧
      c9witEnv.startResult = .ok "m7" ∧ c9witStat.status = "complete" ∧
      (4000 : Nat) - c9witEnv.pollStart ≤ MAX_POLL_TIME) ∧
    (∃ r, (turnPoll emptyState "Quan es la diada de Sant Felix?"
        c9witEnv).2 = .resolved r ∧
      r.timestamp = 4000 ∧
      (sendMessageContent emptyState "Quan es la diada de Sant Felix?"
          c9witEnv).state.messages =
        sortMessages (emptyState.messages ++
          [userMessageFromDb "Quan es la diada de Sant Felix?" r,
           assistantMessage "Quan es la diada de Sant Felix?" r]) ∧
      (userMessageFromDb "Quan es la diada de Sant Felix?" r).timestamp =
        4000 ∧
      (assistantMessage "Quan es la diada de Sant Felix?" r).timestamp =
        4000) :=
  ⟨⟨by decide, rfl, rfl, by decide⟩,
    commit_uses_resolution_timestamp emptyState
      "Quan es la diada de Sant Felix?" c9witEnv "m7" []
      ⟨4000, .ok c9witStat⟩ c9witStat []
      (by decide) rfl (by simp [emptyState]) rfl rfl rfl (by decide) rfl rfl⟩

/-- Bootstrap environment after a reload of an unsaved conversation whose
list was mirrored to the cache (no session id active before or after). -/
def unsavedReloadEnv (msgs remote : List Message) : LoadEnv :=
  { sessionId := none, prevSessionId := none,
    cache := saveUnsavedChat none msgs none, remoteHistory := remote }

/-- C8: bootstrapping with no session id after the message list was
mirrored to the local cache restores exactly the mirrored messages,
verbatim and in their original order — deserialise after serialise is the
identity — without any call to the remote conversation store. -/
theorem cache_restore_roundtrip (msgs remote : List Message)
    (hne : msgs ≠ []) :
    (loadHistory (unsavedReloadEnv msgs remote)).messages = msgs ∧
    (loadHistory (unsavedReloadEnv msgs remote)).remoteCalls = 0 ∧
    decodeMessages (encodeMessages msgs) = some msgs := by
  have hdec := decode_encode_messages msgs
  have hlen : msgs.length > 0 := List.length_pos.mpr hne
  refine ⟨?_, ?_, hdec⟩ <;>
    simp [loadHistory, unsavedReloadEnv, saveUnsavedChat, hdec, hlen]

def c8msgs : List Message :=
  [{ id := "u1", content := "P1", response := some "", route_used := "",
     timestamp := 1, response_time_ms := 0, isUser := true },
   { id := "a1b", content := "P1", response := some "R1", route_used := "rag",
     timestamp := 2, response_time_ms := 7, isUser := false },
   { id := "u2", content := "P2", response := some "", route_used := "",
     timestamp := 3, response_time_ms := 0, isUser := true }]

/-- Witness for C8 with a three-message cached conversation. -/
theorem cache_restore_roundtrip_witness :
    c8msgs ≠ [] ∧
    ((loadHistory (unsavedReloadEnv c8msgs [])).messages = c8msgs ∧
      (loadHistory (unsavedReloadEnv c8msgs [])).remoteCalls = 0 ∧
      decodeMessages (encodeMessages c8msgs) = some c8msgs) :=
  ⟨by decide, cache_restore_roundtrip c8msgs [] (by decide)⟩

/-! ### Serial turns (C3) -/

theorem goodTurn_unpack (s : ChatState) (content : String) (env : TurnEnv)
    (h : goodTurn s content env = true) :
    jsTrim content ≠ "" ∧ s.isLoading = false ∧
    (∃ r, (turnPoll s content env).2 = .resolved r) ∧
    (∀ m ∈ s.messages, m.id ≠ tempUserId env.submitNow) := by
  simp only [goodTurn, Bool.and_eq_true, decide_eq_true_eq, Bool.not_eq_true',
    List.all_eq_true, bne_iff_ne, ne_eq] at h
  obtain ⟨⟨⟨hc, hl⟩, hres⟩, hall⟩ := h
  refine ⟨hc, hl, ?_, fun m hm => hall m hm⟩
  cases hfin : (turnPoll s content env).2 with
  | resolved r => exact ⟨r, rfl⟩
  | rejected e =>
    rw [turnPoll] at hfin
    rw [hfin] at hres
    simp [PollFinal.isResolved] at hres
  | pending =>
    rw [turnPoll] at hfin
    rw [hfin] at hres
    simp [PollFinal.isResolved] at hres

/-- One good turn appends one finalized user message and one assistant
message, then re-sorts; loading ends. -/
theorem runTurn_good (s : ChatState) (content : String) (env : TurnEnv)
    (h : goodTurn s content env = true) :
    ∃ r, (runTurn s (content, env)).messages =
        sortMessages (s.messages ++
          [userMessageFromDb content r, assistantMessage content r]) ∧
      (runTurn s (content, env)).isLoading = false := by
  obtain ⟨hc, hl, ⟨r, hres⟩, hfresh⟩ := goodTurn_unpack s content env h
  obtain ⟨hm, hload, _, _, _⟩ :=
    sendMessageContent_resolved s content env r hc hl hfresh hres
  exact ⟨r, hm, hload⟩

theorem runTurn_good_stats (s : ChatState) (content : String) (env : TurnEnv)
    (h : goodTurn s content env = true) :
    (runTurn s (content, env)).messages.length = s.messages.length + 2 ∧
    (runTurn s (content, env)).messages.countP (fun m => m.isUser) =
      s.messages.countP (fun m => m.isUser) + 1 ∧
    (runTurn s (content, env)).messages.countP (fun m => !m.isUser) =
      s.messages.countP (fun m => !m.isUser) + 1 ∧
    (runTurn s (content, env)).messages.Pairwise msgRel ∧
    (runTurn s (content, env)).isLoading = false := by
  obtain ⟨r, hm, hload⟩ := runTurn_good s content env h
  rw [hm]
  refine ⟨?_, ?_, ?_, pairwise_sortMessages _, hload⟩
  · rw [length_sortMessages]
    simp
  · rw [countP_sortMessages]
    simp [List.countP_append, List.countP_cons, userMessageFromDb,
      assistantMessage]
  · rw [countP_sortMessages]
    simp [List.countP_append, List.countP_cons, userMessageFromDb,
      assistantMessage]

theorem runTurns_serial_stats (ts : List (String × TurnEnv)) (s : ChatState)
    (h : serialOk s ts = true) :
    (runTurns s ts).messages.length = s.messages.length + 2 * ts.length ∧
    (runTurns s ts).messages.countP (fun m => m.isUser) =
      s.messages.countP (fun m => m.isUser) + ts.length ∧
    (runTurns s ts).messages.countP (fun m => !m.isUser) =
      s.messages.countP (fun m => !m.isUser) + ts.length ∧
    (ts ≠ [] → (runTurns s ts).messages.Pairwise msgRel) := by
  induction ts generalizing s with
  | nil => simp [runTurns]
  | cons t ts ih =>
    rw [serialOk, Bool.and_eq_true] at h
    obtain ⟨hg, hrest⟩ := h
    obtain ⟨hlen, hu, ha, hpw, _⟩ := runTurn_good_stats s t.1 t.2 hg
    have hts := ih (runTurn s t) hrest
    have hfold : runTurns s (t :: ts) = runTurns (runTurn s t) ts := rfl
    rw [hfold]
    refine ⟨?_, ?_, ?_, ?_⟩
    · rw [hts.1, hlen, List.length_cons]; omega
    · rw [hts.2.1, hu, List.length_cons]; omega
    · rw [hts.2.2.1, ha, List.length_cons]; omega
    · intro _
      cases ts with
      | nil => simpa [runTurns] using hpw
      | cons t' ts' => exact hts.2.2.2 (by simp)

theorem msgRel_spec (a b : Message) (h : msgRel a b) :
    a.timestamp ≤ b.timestamp ∧
      (a.timestamp = b.timestamp → b.isUser = true → a.isUser = true) := by
  simp only [msgRel, msgLE] at h
  by_cases heq : a.timestamp = b.timestamp
  · refine ⟨le_of_eq heq, fun _ hb => ?_⟩
    rw [if_pos heq] at h
    cases ha : a.isUser
    · rw [ha, hb] at h; simp at h
    · rfl
  · rw [if_neg heq] at h
    exact ⟨le_of_lt (of_decide_eq_true h), fun he => absurd he heq⟩

/-- C3: N serially submitted questions, each reaching a successful
terminal commit, leave exactly 2N committed messages — N user and N
assistant — and the list, re-sorted at every terminal commit, has
non-decreasing timestamps and never places an assistant message before a
user message of equal timestamp (so each pair's user message sorts before
its paired assistant message). -/
theorem serial_turns_message_list (ts : List (String × TurnEnv))
    (h : serialOk emptyState ts = true) :
    (runTurns emptyState ts).messages.length = 2 * ts.length ∧
    (runTurns emptyState ts).messages.countP (fun m => m.isUser) =
      ts.length ∧
    (runTurns emptyState ts).messages.countP (fun m => !m.isUser) =
      ts.length ∧
    (runTurns emptyState ts).messages.Pairwise (fun a b =>
      a.timestamp ≤ b.timestamp ∧
        (a.timestamp = b.timestamp → b.isUser = true → a.isUser = true)) := by
  obtain ⟨hlen, hu, ha, hpw⟩ := runTurns_serial_stats ts emptyState h
  refine ⟨by simpa [emptyState] using hlen, by simpa [emptyState] using hu,
    by simpa [emptyState] using ha, ?_⟩
  cases ts with
  | nil => simp [runTurns, emptyState]
  | cons t ts' =>
    exact (hpw (by simp)).imp (fun hab => msgRel_spec _ _ hab)

def c3turns : List (String × TurnEnv) :=
  [("Primera pregunta?",
    { submitNow := 10, startResult := .ok "ma", pollStart := 0,
      steps := [⟨500, .ok { status := "complete", response := some "RA" }⟩] }),
   ("Segona pregunta?",
    { submitNow := 2000, startResult := .ok "mb", pollStart := 1000,
      steps := [⟨3000, .ok { status := "complete", response := some "RB" }⟩] })]

/-- Witness for C3 with two serial successful turns. -/
theorem serial_turns_message_list_witness :
    serialOk emptyState c3turns = true ∧
    ((runTurns emptyState c3turns).messages.length = 2 * c3turns.length ∧
    (runTurns emptyState c3turns).messages.countP (fun m => m.isUser) =
      c3turns.length ∧
    (runTurns emptyState c3turns).messages.countP (fun m => !m.isUser) =
      c3turns.length ∧
    (runTurns emptyState c3turns).messages.Pairwise (fun a b =>
      a.timestamp ≤ b.timestamp ∧
        (a.timestamp = b.timestamp → b.isUser = true → a.isUser = true))) :=
  ⟨by decide, serial_turns_message_list c3turns (by decide)⟩

end Castellers
